import Mathlib

/-!
Verification development for the Kubernetes tool layer in `src/basicTools.py`.

The Python functions are embedded shallowly:
* The behavior of the Kubernetes control plane (and of kubeconfig loading)
  is a parameter of each function, packaged in an environment structure
  (`RestartEnv`, `LogsEnv`, ...).  Every cluster API call has one of three
  outcomes, mirroring what the Python code distinguishes: a returned value,
  a raised `ApiException` (carrying its HTTP status and its string
  rendering), or any other raised exception (carrying its string rendering).
* Each embedded function returns, besides its Python return value, the
  ordered trace of cluster API calls it issued, so that claims about which
  network calls happen (and with which arguments) are statable.
* Python `try`/`except` blocks become pattern matches on outcomes; the code
  catches every exception on every path, so the embedded functions are
  total by construction, matching the source.
* Python `None` becomes `Option.none`; Python dicts that are built by
  insertion become association lists in insertion order.
-/

/-- Hard-coded kubeconfig location from the top of `basicTools.py`. -/
def KUBECONFIG_PATH : String := "C:/Users/mandapak/Desktop/wslk3s.yaml"

/-- Outcome of one Kubernetes client call, as the Python code distinguishes
them: a value, a raised `ApiException` (with HTTP status code and the string
`str(e)` used in messages), or any other raised exception. -/
inductive ApiOutcome (α : Type) where
  | ok (value : α)
  | apiErr (status : Nat) (estr : String)
  | exn (estr : String)
deriving DecidableEq

/-- True when the outcome is a returned value. -/
def ApiOutcome.isOk {α : Type} : ApiOutcome α → Bool
  | .ok _ => true
  | _ => false

/-- True when the outcome is a non-`ApiException` exception. -/
def ApiOutcome.isExn {α : Type} : ApiOutcome α → Bool
  | .exn _ => true
  | _ => false

/-- A naive `datetime.datetime` value as produced by `datetime.datetime.utcnow()`. -/
structure PyDatetime where
  year : Nat
  month : Nat
  day : Nat
  hour : Nat
  minute : Nat
  second : Nat
  microsecond : Nat
deriving DecidableEq

/-- The decimal digit character for `n < 10`. -/
def digitChar (n : Nat) : Char := Char.ofNat (48 + n)

/-- Two-digit zero-padded decimal rendering (`%02d`) of `n < 100`. -/
def pad2 (n : Nat) : String :=
  String.mk [digitChar (n / 10), digitChar (n % 10)]

/-- Four-digit zero-padded decimal rendering (`%04d`) of `n < 10000`. -/
def pad4 (n : Nat) : String :=
  String.mk [digitChar (n / 1000), digitChar (n / 100 % 10), digitChar (n / 10 % 10), digitChar (n % 10)]

/-- Six-digit zero-padded decimal rendering (`%06d`) of `n < 1000000`. -/
def pad6 (n : Nat) : String :=
  String.mk [digitChar (n / 100000), digitChar (n / 10000 % 10), digitChar (n / 1000 % 10),
    digitChar (n / 100 % 10), digitChar (n / 10 % 10), digitChar (n % 10)]

/-- Python `datetime.isoformat()` on a naive datetime: `YYYY-MM-DDTHH:MM:SS` with a
`.ffffff` fraction appended only when the microsecond field is nonzero. -/
def pyIsoformat (t : PyDatetime) : String :=
  pad4 t.year ++ "-" ++ pad2 t.month ++ "-" ++ pad2 t.day ++ "T" ++
    pad2 t.hour ++ ":" ++ pad2 t.minute ++ ":" ++ pad2 t.second ++
    (if t.microsecond = 0 then ("") else (".") ++ pad6 t.microsecond)

/-- The well-known restart key used by `kubectl rollout restart`. -/
def restartedAtKey : String := "kubectl.kubernetes.io/restartedAt"

/-- The patch body sent by `rollout_restart_deployment`.  In the source it is
the nested dict `spec / template / metadata / annotations`, holding a single
key/value pair; the nesting path is flattened into the field name. -/
structure PatchBody where
  spec_template_metadata_annotations : List (String × String)
deriving DecidableEq

/-- One network call issued to the cluster, with the arguments the source
passes. -/
inductive ApiCall where
  | readNamespacedDeployment (name nspace : String)
  | patchNamespacedDeployment (name nspace : String) (body : PatchBody)
  | listNamespacedPod (nspace label_selector : String)
  | readNamespacedPodLog (name nspace : String) (since_seconds : Int) (tail_lines : Option Int)
deriving DecidableEq

/-- The deployment object returned by `read_namespaced_deployment`, reduced to
the fields the embedded functions consult: the desired replica count (which
`rollout_restart_deployment` never reads, letting claims quantify over it) and
the selector labels `spec.selector.match_labels` used by `get_deployment_logs`. -/
structure V1DeploymentObj where
  replicas : Option Int
  selector_match_labels : List (String × String)
deriving DecidableEq

/-- Cluster and environment behavior visible to `rollout_restart_deployment`:
whether the kubeconfig file exists, whether `load_kube_config` raises (with the
exception's string), the outcome of reading the deployment, and the outcome of
the n-th patch call (the stub form used by the spec's retry scenario; the
source only ever consults index 0). -/
structure RestartEnv where
  kubeconfigExists : Bool
  loadConfigError : Option String
  readDeployment : ApiOutcome V1DeploymentObj
  patchOutcomes : Nat → ApiOutcome Unit

/-- The dict returned by `rollout_restart_deployment` (`nspace` stands for the
source's `namespace` key, which is a Lean keyword). -/
structure RestartResult where
  success : Bool
  message : String
  deployment_name : String
  nspace : String
deriving DecidableEq

/-- Shallow embedding of `rollout_restart_deployment` from `basicTools.py`
(lines 176-274), returning the result dict together with the trace of cluster
API calls issued. -/
def rollout_restart_deployment (env : RestartEnv) (now : PyDatetime)
    (deployment_name : String) (ns : String) : RestartResult × List ApiCall :=
  match env.kubeconfigExists with
  | false =>
    ({ success := false,
       message := "Kubeconfig file not found at " ++ KUBECONFIG_PATH,
       deployment_name := deployment_name, nspace := ns }, [])
  | true =>
    match env.loadConfigError with
    | some e =>
      ({ success := false, message := "Error: " ++ e,
         deployment_name := deployment_name, nspace := ns }, [])
    | none =>
      let readCall := ApiCall.readNamespacedDeployment deployment_name ns
      match env.readDeployment with
      | .exn e =>
        ({ success := false, message := "Error: " ++ e,
           deployment_name := deployment_name, nspace := ns }, [readCall])
      | .apiErr status e =>
        if status = 404 then
          ({ success := false,
             message := "Deployment \x27" ++ deployment_name ++ "\x27 not found in namespace \x27" ++ ns ++ "\x27",
             deployment_name := deployment_name, nspace := ns }, [readCall])
        else
          ({ success := false, message := "API Error: " ++ e,
             deployment_name := deployment_name, nspace := ns }, [readCall])
      | .ok _ =>
        let nowStr := pyIsoformat now ++ "Z"
        let body : PatchBody := { spec_template_metadata_annotations := [(restartedAtKey, nowStr)] }
        let patchCall := ApiCall.patchNamespacedDeployment deployment_name ns body
        match env.patchOutcomes 0 with
        | .ok _ =>
          ({ success := true,
             message := "Deployment \x27" ++ deployment_name ++ "\x27 in namespace \x27" ++ ns ++ "\x27 rollout restart initiated",
             deployment_name := deployment_name, nspace := ns }, [readCall, patchCall])
        | .apiErr status e =>
          if status = 404 then
            ({ success := false,
               message := "Deployment \x27" ++ deployment_name ++ "\x27 not found in namespace \x27" ++ ns ++ "\x27",
               deployment_name := deployment_name, nspace := ns }, [readCall, patchCall])
          else
            ({ success := false, message := "API Error: " ++ e,
               deployment_name := deployment_name, nspace := ns }, [readCall, patchCall])
        | .exn e =>
          ({ success := false, message := "Error: " ++ e,
             deployment_name := deployment_name, nspace := ns }, [readCall, patchCall])

/-- Number of patch calls in a trace. -/
def countPatchCalls (trace : List ApiCall) : Nat :=
  trace.countP (fun c =>
    match c with
    | .patchNamespacedDeployment _ _ _ => true
    | _ => false)

/-- Cluster and environment behavior visible to `get_deployment_logs`:
kubeconfig presence, `load_kube_config`, the deployment read, the pod listing
(keyed by the label selector string the source builds), and each pod's log
read (keyed by pod name). -/
structure LogsEnv where
  kubeconfigExists : Bool
  loadConfigError : Option String
  readDeployment : ApiOutcome V1DeploymentObj
  listPodsForSelector : String → ApiOutcome (List String)
  readPodLog : String → ApiOutcome String

/-- The dict returned by `get_deployment_logs`; `logs` is the pod-name-keyed
dict in insertion order. -/
structure LogsResult where
  success : Bool
  message : String
  logs : List (String × String)
  deployment_name : String
  nspace : String
deriving DecidableEq

/-- The selector string the source builds:
`",".join(f"{k}={v}" for k, v in selector.items())`. -/
def labelSelectorOf (labels : List (String × String)) : String :=
  String.intercalate (",") (labels.map (fun kv => kv.1 ++ "=" ++ kv.2))

/-- The per-pod loop of `get_deployment_logs` (lines 353-364): for each pod,
try the log read; an `ApiException` is recorded as that pod's entry text; any
other exception escapes the loop (to the outer handler), so the loop stops
there.  Returns the entries built, the calls issued, and the escaping
exception's string if one was raised. -/
def fetchPodLogs (env : LogsEnv) (ns : String) (since_seconds : Int)
    (tail_lines : Option Int) :
    List String → List (String × String) × List ApiCall × Option String
  | [] => ([], [], none)
  | p :: rest =>
    let call := ApiCall.readNamespacedPodLog p ns since_seconds tail_lines
    match env.readPodLog p with
    | .exn e => ([], [call], some e)
    | .ok t =>
      let r := fetchPodLogs env ns since_seconds tail_lines rest
      ((p, t) :: r.1, call :: r.2.1, r.2.2)
    | .apiErr _ e =>
      let r := fetchPodLogs env ns since_seconds tail_lines rest
      ((p, "Error retrieving logs: " ++ e) :: r.1, call :: r.2.1, r.2.2)

/-- Shallow embedding of `get_deployment_logs` from `basicTools.py`
(lines 277-399), returning the result dict together with the trace of cluster
API calls issued. -/
def get_deployment_logs (env : LogsEnv) (deployment_name : String) (ns : String)
    (hours : Int) (tail_lines : Option Int) : LogsResult × List ApiCall :=
  if env.kubeconfigExists = false then
    ({ success := false,
       message := "Kubeconfig file not found at " ++ KUBECONFIG_PATH,
       logs := [], deployment_name := deployment_name, nspace := ns }, [])
  else
    match env.loadConfigError with
    | some e =>
      ({ success := false, message := "Error: " ++ e,
         logs := [], deployment_name := deployment_name, nspace := ns }, [])
    | none =>
      let readCall := ApiCall.readNamespacedDeployment deployment_name ns
      match env.readDeployment with
      | .exn e =>
        ({ success := false, message := "Error: " ++ e,
           logs := [], deployment_name := deployment_name, nspace := ns }, [readCall])
      | .apiErr status e =>
        if status = 404 then
          ({ success := false,
             message := "Deployment \x27" ++ deployment_name ++ "\x27 not found in namespace \x27" ++ ns ++ "\x27",
             logs := [], deployment_name := deployment_name, nspace := ns }, [readCall])
        else
          ({ success := false, message := "API Error: " ++ e,
             logs := [], deployment_name := deployment_name, nspace := ns }, [readCall])
      | .ok d =>
        let label_selector := labelSelectorOf d.selector_match_labels
        let listCall := ApiCall.listNamespacedPod ns label_selector
        match env.listPodsForSelector label_selector with
        | .exn e =>
          ({ success := false, message := "Error: " ++ e,
             logs := [], deployment_name := deployment_name, nspace := ns }, [readCall, listCall])
        | .apiErr status e =>
          if status = 404 then
            ({ success := false,
               message := "Deployment \x27" ++ deployment_name ++ "\x27 not found in namespace \x27" ++ ns ++ "\x27",
               logs := [], deployment_name := deployment_name, nspace := ns }, [readCall, listCall])
          else
            ({ success := false, message := "API Error: " ++ e,
               logs := [], deployment_name := deployment_name, nspace := ns }, [readCall, listCall])
        | .ok podNames =>
          match podNames with
          | [] =>
            ({ success := false,
               message := "No pods found for deployment \x27" ++ deployment_name ++ "\x27 in namespace \x27" ++ ns ++ "\x27",
               logs := [], deployment_name := deployment_name, nspace := ns }, [readCall, listCall])
          | _ :: _ =>
            let since_seconds : Int := hours * 3600
            let r := fetchPodLogs env ns since_seconds tail_lines podNames
            match r.2.2 with
            | some e =>
              ({ success := false, message := "Error: " ++ e,
                 logs := [], deployment_name := deployment_name, nspace := ns },
               [readCall, listCall] ++ r.2.1)
            | none =>
              ({ success := true,
                 message := "Retrieved logs for " ++ toString r.1.length ++ " pods in deployment \x27" ++ deployment_name ++ "\x27",
                 logs := r.1, deployment_name := deployment_name, nspace := ns },
               [readCall, listCall] ++ r.2.1)

/-- A pod item as returned by `list_namespaced_pod`, reduced to the attributes
read by `list_pods_in_namespace`. -/
structure V1Pod where
  name : String
  phase : Option String
  pod_ip : Option String
deriving DecidableEq

/-- One entry of the list returned by `list_pods_in_namespace`. -/
structure PodInfo where
  name : String
  status : Option String
  ip : Option String
deriving DecidableEq

/-- Environment for `list_pods_in_namespace`. -/
structure PodsEnv where
  kubeconfigExists : Bool
  loadConfigError : Option String
  listPodsOutcome : ApiOutcome (List V1Pod)

/-- Shallow embedding of `list_pods_in_namespace` from `basicTools.py`
(lines 23-76).  Every error path (`return []` after a printed message) becomes
the empty list; no trace is needed by any claim about this function. -/
def list_pods_in_namespace (env : PodsEnv) (ns : String) : List PodInfo :=
  match env.kubeconfigExists with
  | false => []
  | true =>
    match env.loadConfigError with
    | some _ => []
    | none =>
      match env.listPodsOutcome with
      | .ok items =>
        items.map (fun pod => { name := pod.name, status := pod.phase, ip := pod.pod_ip })
      | .apiErr _ _ => []
      | .exn _ => []

/-- Unused `ns` argument silencer: the embedded listing functions take the
namespace purely to mirror the source signature; the cluster's answer for that
namespace lives in the environment. -/
theorem list_pods_ns_irrelevant (env : PodsEnv) (ns1 ns2 : String) :
    list_pods_in_namespace env ns1 = list_pods_in_namespace env ns2 := rfl

/-- A deployment item as returned by `list_namespaced_deployment`, reduced to
the attributes read by `list_deployments_in_namespace`.  `spec_present`
models the truthiness of `deployment.spec`, `template_chain_present` the
truthiness of `deployment.spec.template and deployment.spec.template.spec`
guarding image extraction, `status_present` the truthiness of
`deployment.status`.  `creation_timestamp` is in epoch seconds
(`none` = unset). -/
structure V1DeploymentItem where
  name : String
  spec_present : Bool
  spec_replicas : Option Int
  template_chain_present : Bool
  container_images : List String
  creation_timestamp : Option Int
  status_present : Bool
  status_ready_replicas : Option Int
  status_available_replicas : Option Int
  status_updated_replicas : Option Int
deriving DecidableEq

/-- One entry of the list returned by `list_deployments_in_namespace`.
`total_replicas` is reported raw (it can be Python `None`); the other counts
are reported through `x or 0`. -/
structure DeploymentInfo where
  name : String
  ready_replicas : Int
  total_replicas : Option Int
  available_replicas : Int
  up_to_date_replicas : Int
  image : List String
  age_minutes : Rat
  is_healthy : Bool
deriving DecidableEq

/-- Environment for `list_deployments_in_namespace`; `nowEpoch` is
`datetime.datetime.now(tz)` in epoch seconds. -/
structure DeploysEnv where
  kubeconfigExists : Bool
  loadConfigError : Option String
  nowEpoch : Int
  listDeploymentsOutcome : ApiOutcome (List V1DeploymentItem)

/-- Python `x or 0` on an int-or-None value. -/
def pyOrZero : Option Int → Int
  | none => 0
  | some n => if n = 0 then 0 else n

/-- Python `==` between two int-or-None values (`None == None` is `True`,
`None == int` is `False`). -/
def pyEqOpt : Option Int → Option Int → Bool
  | none, none => true
  | some a, some b => a = b
  | _, _ => false

/-- Python `round(x, 1)` modeled on exact rationals: scale by 10, round half
to even, scale back.  (Binary floating-point artifacts of the source are not
modeled; no claim depends on this field.) -/
def pyRound1 (x : Rat) : Rat :=
  let n : Rat := x * 10
  let f : Int := n.floor
  let frac : Rat := n - (f : Rat)
  let r : Int :=
    if frac < 1/2 then f
    else if 1/2 < frac then f + 1
    else if f % 2 = 0 then f else f + 1
  (r : Rat) / 10

/-- Shallow embedding of `list_deployments_in_namespace` from `basicTools.py`
(lines 79-173).  Every error path becomes the empty list. -/
def list_deployments_in_namespace (env : DeploysEnv) (ns : String) : List DeploymentInfo :=
  match env.kubeconfigExists with
  | false => []
  | true =>
    match env.loadConfigError with
    | some _ => []
    | none =>
      match env.listDeploymentsOutcome with
      | .apiErr _ _ => []
      | .exn _ => []
      | .ok items =>
        items.map (fun d =>
          let images := if d.spec_present && d.template_chain_present then d.container_images else []
          let age_minutes : Rat :=
            match d.creation_timestamp with
            | none => 0
            | some ts => ((env.nowEpoch - ts : Int) : Rat) / 60
          let total_replicas : Option Int := if d.spec_present then d.spec_replicas else some 0
          let ready_replicas : Option Int := if d.status_present then d.status_ready_replicas else some 0
          let available_replicas : Option Int := if d.status_present then d.status_available_replicas else some 0
          let up_to_date_replicas : Option Int := if d.status_present then d.status_updated_replicas else some 0
          let is_healthy :=
            ready_replicas.isSome && pyEqOpt ready_replicas total_replicas &&
              available_replicas.isSome && pyEqOpt available_replicas total_replicas
          { name := d.name,
            ready_replicas := pyOrZero ready_replicas,
            total_replicas := total_replicas,
            available_replicas := pyOrZero available_replicas,
            up_to_date_replicas := pyOrZero up_to_date_replicas,
            image := images,
            age_minutes := pyRound1 age_minutes,
            is_healthy := is_healthy })

/-- Helper for `isRFC3339UTC`: a possibly empty run of digits followed by a
final `Z`. -/
def digitsThenZ : List Char → Bool
  | [] => false
  | [c] => c = 'Z'
  | c :: rest => c.isDigit && digitsThenZ rest

/-- Helper for `isRFC3339UTC`: the tail after the seconds field — either a
bare `Z` or a dot, at least one fractional digit, and `Z`. -/
def rfcSecondsTail : List Char → Bool
  | ['Z'] => true
  | '.' :: c :: rest => c.isDigit && digitsThenZ (c :: rest)
  | _ => false

/-- RFC3339 / ISO-8601 UTC timestamp shape on a character list:
`DDDD-DD-DDTDD:DD:DD`, an optional fractional-seconds part, and a final `Z`. -/
def rfcChars : List Char → Bool
  | y1 :: y2 :: y3 :: y4 :: '-' :: o1 :: o2 :: '-' :: d1 :: d2 :: 'T' ::
      h1 :: h2 :: ':' :: i1 :: i2 :: ':' :: s1 :: s2 :: rest =>
    y1.isDigit && y2.isDigit && y3.isDigit && y4.isDigit &&
      o1.isDigit && o2.isDigit && d1.isDigit && d2.isDigit &&
      h1.isDigit && h2.isDigit && i1.isDigit && i2.isDigit &&
      s1.isDigit && s2.isDigit && rfcSecondsTail rest
  | _ => false

/-- RFC3339 / ISO-8601 UTC timestamp shape of a string. -/
def isRFC3339UTC (s : String) : Bool := rfcChars s.data

theorem data_append (a b : String) : (a ++ b).data = a.data ++ b.data := rfl

theorem digitChar_isDigit (n : Nat) (h : n < 10) : (digitChar n).isDigit = true := by
  interval_cases n <;> decide

theorem ite_true_eq_false {α : Sort _} [inst : Decidable (true = false)] (a b : α) :
    (if true = false then a else b) = b := if_neg (fun h => Bool.noConfusion h)

theorem eq_empty_of_data (a : String) (h : a.data = []) : a = "" := by
  cases a with
  | mk l =>
    have hl : l = [] := h
    rw [hl]

theorem append_ne_empty_left (a b : String) (h : a ≠ "") : a ++ b ≠ "" := by
  intro hab
  apply h
  apply eq_empty_of_data
  have hd : (a ++ b).data = ("" : String).data := by rw [hab]
  rw [data_append] at hd
  exact (List.append_eq_nil.mp hd).1

theorem mk_data (l : List Char) : (String.mk l).data = l := rfl

theorem dash_data : ("-" : String).data = ['-'] := rfl

theorem colon_data : (":" : String).data = [':'] := rfl

theorem tee_data : ("T" : String).data = ['T'] := rfl

theorem dot_data : ("." : String).data = ['.'] := rfl

theorem zee_data : ("Z" : String).data = ['Z'] := rfl

theorem empty_data : ("" : String).data = [] := rfl

theorem digitChar_mod_isDigit (n : Nat) : (digitChar (n % 10)).isDigit = true :=
  digitChar_isDigit _ (Nat.mod_lt _ (by decide))

/-- A naive `isoformat()` string with a `Z` suffix is a well-formed
RFC3339/ISO-8601 UTC timestamp, for any datetime within the field bounds
`datetime.datetime` guarantees. -/
theorem pyIsoformat_rfc (t : PyDatetime) (hy : t.year < 10000) (hmo : t.month < 100)
    (hd : t.day < 100) (hh : t.hour < 100) (hmi : t.minute < 100) (hs : t.second < 100)
    (hus : t.microsecond < 1000000) :
    isRFC3339UTC (pyIsoformat t ++ "Z") = true := by
  have h1 : (digitChar (t.year / 1000)).isDigit = true := digitChar_isDigit _ (by omega)
  have h2 : (digitChar (t.month / 10)).isDigit = true := digitChar_isDigit _ (by omega)
  have h3 : (digitChar (t.day / 10)).isDigit = true := digitChar_isDigit _ (by omega)
  have h4 : (digitChar (t.hour / 10)).isDigit = true := digitChar_isDigit _ (by omega)
  have h5 : (digitChar (t.minute / 10)).isDigit = true := digitChar_isDigit _ (by omega)
  have h6 : (digitChar (t.second / 10)).isDigit = true := digitChar_isDigit _ (by omega)
  have h7 : (digitChar (t.microsecond / 100000)).isDigit = true := digitChar_isDigit _ (by omega)
  unfold isRFC3339UTC pyIsoformat pad4 pad2 pad6
  by_cases hm : t.microsecond = 0 <;>
    simp [hm, data_append, mk_data, dash_data, colon_data, tee_data, dot_data, zee_data,
      empty_data, rfcChars, rfcSecondsTail, digitsThenZ, h1, h2, h3, h4, h5, h6, h7,
      digitChar_mod_isDigit]

/-- The exact condition under which `rollout_restart_deployment` takes its
success path: kubeconfig present, config load clean, deployment read ok, and
the (single) patch call ok. -/
def restartHappy (env : RestartEnv) : Bool :=
  env.kubeconfigExists && env.loadConfigError.isNone && env.readDeployment.isOk &&
    (env.patchOutcomes 0).isOk

/-- The exact condition under which `get_deployment_logs` takes its success
path: kubeconfig present, config load clean, deployment read ok, pod listing
ok and nonempty, and no pod log read raising a non-`ApiException`. -/
def logsHappy (env : LogsEnv) : Bool :=
  env.kubeconfigExists && env.loadConfigError.isNone &&
    (match env.readDeployment with
     | .ok d =>
       (match env.listPodsForSelector (labelSelectorOf d.selector_match_labels) with
        | .ok podNames =>
          !podNames.isEmpty && podNames.all (fun p => !(env.readPodLog p).isExn)
        | .apiErr _ _ => false
        | .exn _ => false)
     | .apiErr _ _ => false
     | .exn _ => false)

/-- The exact condition under which `list_pods_in_namespace` reaches the
listing path. -/
def podsHappy (env : PodsEnv) : Bool :=
  env.kubeconfigExists && env.loadConfigError.isNone && env.listPodsOutcome.isOk

/-- The exact condition under which `list_deployments_in_namespace` reaches
the listing path. -/
def deploysHappy (env : DeploysEnv) : Bool :=
  env.kubeconfigExists && env.loadConfigError.isNone && env.listDeploymentsOutcome.isOk

/-- The `logs` entry the per-pod loop of `get_deployment_logs` produces for
pod `p` when the loop completes (the `.exn` case never feeds an entry: it
aborts the loop instead; its value here is arbitrary). -/
def podLogEntry (env : LogsEnv) (p : String) : String × String :=
  match env.readPodLog p with
  | .ok t => (p, t)
  | .apiErr _ e => (p, "Error retrieving logs: " ++ e)
  | .exn e => (p, e)

theorem fetchPodLogs_abort_none (env : LogsEnv) (ns : String) (s : Int) (tl : Option Int) :
    ∀ pods : List String,
      (fetchPodLogs env ns s tl pods).2.2 = none ↔
        ∀ p ∈ pods, (env.readPodLog p).isExn = false := by
  intro pods
  induction pods with
  | nil => simp [fetchPodLogs]
  | cons p rest ih =>
    rcases h : env.readPodLog p with t | ⟨st, e⟩ | e <;>
      simp [fetchPodLogs, h, ih, ApiOutcome.isExn]

theorem fetchPodLogs_entries (env : LogsEnv) (ns : String) (s : Int) (tl : Option Int) :
    ∀ pods : List String,
      (∀ p ∈ pods, (env.readPodLog p).isExn = false) →
      (fetchPodLogs env ns s tl pods).1 = pods.map (podLogEntry env) := by
  intro pods
  induction pods with
  | nil => simp [fetchPodLogs]
  | cons p rest ih =>
    intro h
    have hp := h p (List.mem_cons_self p rest)
    have hrest : ∀ q ∈ rest, (env.readPodLog q).isExn = false :=
      fun q hq => h q (List.mem_cons_of_mem p hq)
    rcases hq : env.readPodLog p with t | ⟨st, e⟩ | e <;>
      simp_all [fetchPodLogs, podLogEntry, ApiOutcome.isExn]

theorem fetchPodLogs_calls (env : LogsEnv) (ns : String) (s : Int) (tl : Option Int) :
    ∀ pods : List String,
      (∀ p ∈ pods, (env.readPodLog p).isExn = false) →
      (fetchPodLogs env ns s tl pods).2.1 =
        pods.map (fun p => ApiCall.readNamespacedPodLog p ns s tl) := by
  intro pods
  induction pods with
  | nil => simp [fetchPodLogs]
  | cons p rest ih =>
    intro h
    have hp := h p (List.mem_cons_self p rest)
    have hrest : ∀ q ∈ rest, (env.readPodLog q).isExn = false :=
      fun q hq => h q (List.mem_cons_of_mem p hq)
    rcases hq : env.readPodLog p with t | ⟨st, e⟩ | e <;>
      simp_all [fetchPodLogs, ApiOutcome.isExn]

theorem fetchPodLogs_calls_shape (env : LogsEnv) (ns : String) (s : Int) (tl : Option Int) :
    ∀ pods : List String, ∀ c ∈ (fetchPodLogs env ns s tl pods).2.1,
      ∃ p, c = ApiCall.readNamespacedPodLog p ns s tl := by
  intro pods
  induction pods with
  | nil => simp [fetchPodLogs]
  | cons p rest ih =>
    intro c hc
    rcases hq : env.readPodLog p with t | ⟨st, e⟩ | e <;>
      rw [fetchPodLogs] at hc <;> simp only [hq] at hc
    · rcases List.mem_cons.mp hc with h | h
      · exact ⟨p, h⟩
      · exact ih c h
    · rcases List.mem_cons.mp hc with h | h
      · exact ⟨p, h⟩
      · exact ih c h
    · rcases List.mem_cons.mp hc with h | h
      · exact ⟨p, h⟩
      · simp at h
theorem restart_envelope_classified (env : RestartEnv) (now : PyDatetime) (dn ns : String) :
    (rollout_restart_deployment env now dn ns).1.success = restartHappy env ∧
    (rollout_restart_deployment env now dn ns).1.message ≠ "" ∧
    (rollout_restart_deployment env now dn ns).1.deployment_name = dn ∧
    (rollout_restart_deployment env now dn ns).1.nspace = ns := by
  obtain ⟨kc, lc, rd, po⟩ := env
  rcases hpo : po 0 with u | ⟨st2, e2⟩ | e2 <;>
    cases kc <;> rcases lc with _ | e0 <;> rcases rd with d | ⟨st, e1⟩ | e1 <;>
      simp only [rollout_restart_deployment, restartHappy, hpo, ApiOutcome.isOk,
        Option.isNone] <;>
      (try split_ifs) <;>
      exact ⟨by trivial, by (repeat apply append_ne_empty_left); decide, by trivial, by trivial⟩

theorem logs_envelope_classified (env : LogsEnv) (dn ns : String) (hours : Int) (tl : Option Int) :
    (get_deployment_logs env dn ns hours tl).1.success = logsHappy env ∧
    (get_deployment_logs env dn ns hours tl).1.message ≠ "" ∧
    (get_deployment_logs env dn ns hours tl).1.deployment_name = dn ∧
    (get_deployment_logs env dn ns hours tl).1.nspace = ns := by
  obtain ⟨kc, lc, rd, lp, pl⟩ := env
  cases kc with
  | false =>
    exact ⟨rfl, by (repeat apply append_ne_empty_left); decide, rfl, rfl⟩
  | true =>
    rcases lc with _ | e0
    case some =>
      exact ⟨rfl, by (repeat apply append_ne_empty_left); decide, rfl, rfl⟩
    case none =>
    rcases rd with d | ⟨st, e1⟩ | e1
    case apiErr =>
      simp only [get_deployment_logs, logsHappy]
      split_ifs <;>
        exact ⟨rfl, by (repeat apply append_ne_empty_left); decide, rfl, rfl⟩
    case exn =>
      exact ⟨rfl, by (repeat apply append_ne_empty_left); decide, rfl, rfl⟩
    case ok =>
      rcases hlp : lp (labelSelectorOf d.selector_match_labels) with pods | ⟨st2, e2⟩ | e2
      case apiErr =>
        simp only [get_deployment_logs, logsHappy, hlp]
        split_ifs <;>
          exact ⟨rfl, by (repeat apply append_ne_empty_left); decide, rfl, rfl⟩
      case exn =>
        simp only [get_deployment_logs, logsHappy, hlp]
        exact ⟨rfl, by (repeat apply append_ne_empty_left); decide, rfl, rfl⟩
      case ok =>
        rcases pods with _ | ⟨p, rest⟩
        · simp only [get_deployment_logs, logsHappy, hlp]
          exact ⟨rfl, by (repeat apply append_ne_empty_left); decide, rfl, rfl⟩
        · rcases hab : (fetchPodLogs ⟨true, none, .ok d, lp, pl⟩ ns (hours * 3600) tl (p :: rest)).2.2
            with _ | e3
          · have hall : ∀ q ∈ p :: rest,
                ((⟨true, none, .ok d, lp, pl⟩ : LogsEnv).readPodLog q).isExn = false :=
              (fetchPodLogs_abort_none _ _ _ _ _).mp hab
            simp only [get_deployment_logs, logsHappy, hlp, hab]
            refine ⟨?_, by (repeat apply append_ne_empty_left); decide, rfl, rfl⟩
            have hallb : (p :: rest).all (fun q => !(pl q).isExn) = true := by
              rw [List.all_eq_true]
              intro q hq
              rw [Bool.not_eq_true']
              exact hall q hq
            simp [hallb]
          · have hnall : ¬ ∀ q ∈ p :: rest,
                ((⟨true, none, .ok d, lp, pl⟩ : LogsEnv).readPodLog q).isExn = false := by
              intro hc
              have hnone := (fetchPodLogs_abort_none
                (⟨true, none, .ok d, lp, pl⟩ : LogsEnv) ns (hours * 3600) tl (p :: rest)).mpr hc
              rw [hab] at hnone
              exact Option.noConfusion hnone
            simp only [get_deployment_logs, logsHappy, hlp, hab]
            refine ⟨?_, by (repeat apply append_ne_empty_left); decide, rfl, rfl⟩
            have hallb : (p :: rest).all (fun q => !(pl q).isExn) = false := by
              rw [← Bool.not_eq_true, List.all_eq_true]
              intro hc
              apply hnall
              intro q hq
              have hq2 := hc q hq
              rwa [Bool.not_eq_true'] at hq2
            simp [hallb]

/-! Concrete fixtures used by counterexamples and witnesses. -/

/-- A deployment that exists with 0 desired replicas (the spec's scenario for
claim C7) and a one-label selector. -/
def okDeploymentObj : V1DeploymentObj :=
  { replicas := some 0, selector_match_labels := [(("app"), ("checkout"))] }

/-- A cluster in which everything succeeds for a restart. -/
def okRestartEnv : RestartEnv :=
  { kubeconfigExists := true, loadConfigError := none,
    readDeployment := .ok okDeploymentObj,
    patchOutcomes := fun _ => .ok () }

/-- The spec's retry stub: the patch fails (transient 500) on its first two
attempts and would succeed from the third on. -/
def flakyRestartEnv : RestartEnv :=
  { kubeconfigExists := true, loadConfigError := none,
    readDeployment := .ok okDeploymentObj,
    patchOutcomes := fun n => if n < 2 then .apiErr 500 ("boom") else .ok () }

/-- A sample `utcnow()` value. -/
def sampleNow : PyDatetime :=
  { year := 2026, month := 10, day := 12, hour := 1, minute := 2, second := 3,
    microsecond := 123456 }

/-- Claim C1 (counterexample): the code has no in-flight tracking, so two
restart requests for the same resource on a healthy cluster each issue their
own patch call (two in total) and both return success — no request receives a
conflict response, contradicting the claim's "exactly one patch call ... and
the other request immediately receives a conflict response". -/
theorem restart_concurrent_counterexample :
    countPatchCalls (rollout_restart_deployment okRestartEnv sampleNow ("checkout") ("default")).2 +
        countPatchCalls (rollout_restart_deployment okRestartEnv sampleNow ("checkout") ("default")).2 = 2 ∧
    (rollout_restart_deployment okRestartEnv sampleNow ("checkout") ("default")).1.success = true :=
  ⟨rfl, rfl⟩

/-- Claim C1 (amended): `rollout_restart_deployment` keeps no shared state in
the repository, so two requests for the same deployment run independently
under any interleaving: on a healthy cluster each issues exactly one patch
call (two in total) and both return success; no conflict envelope exists in
the code. -/
theorem restart_no_inflight_tracking
    (envA envB : RestartEnv) (nowA nowB : PyDatetime) (dn ns : String)
    (dA dB : V1DeploymentObj)
    (hA1 : envA.kubeconfigExists = true) (hA2 : envA.loadConfigError = none)
    (hA3 : envA.readDeployment = .ok dA) (hA4 : envA.patchOutcomes 0 = .ok ())
    (hB1 : envB.kubeconfigExists = true) (hB2 : envB.loadConfigError = none)
    (hB3 : envB.readDeployment = .ok dB) (hB4 : envB.patchOutcomes 0 = .ok ()) :
    (rollout_restart_deployment envA nowA dn ns).1.success = true ∧
    (rollout_restart_deployment envB nowB dn ns).1.success = true ∧
    countPatchCalls (rollout_restart_deployment envA nowA dn ns).2 +
      countPatchCalls (rollout_restart_deployment envB nowB dn ns).2 = 2 := by
  obtain ⟨kcA, lcA, rdA, poA⟩ := envA
  obtain ⟨kcB, lcB, rdB, poB⟩ := envB
  subst hA1 hA2 hA3 hB1 hB2 hB3
  have hA4x : poA 0 = ApiOutcome.ok () := hA4
  have hB4x : poB 0 = ApiOutcome.ok () := hB4
  simp [rollout_restart_deployment, countPatchCalls, hA4x, hB4x]

theorem restart_no_inflight_tracking_witness :
    (rollout_restart_deployment okRestartEnv sampleNow ("checkout") ("default")).1.success = true ∧
    (rollout_restart_deployment okRestartEnv sampleNow ("checkout") ("default")).1.success = true ∧
    countPatchCalls (rollout_restart_deployment okRestartEnv sampleNow ("checkout") ("default")).2 +
      countPatchCalls (rollout_restart_deployment okRestartEnv sampleNow ("checkout") ("default")).2 = 2 :=
  restart_no_inflight_tracking okRestartEnv okRestartEnv sampleNow sampleNow
    ("checkout") ("default") okDeploymentObj okDeploymentObj rfl rfl rfl rfl rfl rfl rfl rfl

/-- Claim C2 (counterexample): against the spec's stub that fails twice and
then succeeds, the code makes exactly ONE patch call and returns a failure
envelope with the first error's message — it never retries, contradicting the
claim's "exactly 3 patch calls are made and the returned envelope has
success=true". -/
theorem restart_retry_counterexample :
    (rollout_restart_deployment flakyRestartEnv sampleNow ("checkout") ("default")).1.success = false ∧
    (rollout_restart_deployment flakyRestartEnv sampleNow ("checkout") ("default")).1.message =
      "API Error: boom" ∧
    countPatchCalls (rollout_restart_deployment flakyRestartEnv sampleNow ("checkout") ("default")).2 = 1 :=
  ⟨rfl, rfl, rfl⟩

/-- Claim C2 (amended): there is no retry and no backoff: a single transient
`ApiError` on the patch immediately produces a failure envelope carrying that
error's message, with exactly one patch call issued. -/
theorem restart_no_retry (env : RestartEnv) (now : PyDatetime) (dn ns : String)
    (d : V1DeploymentObj) (st : Nat) (e : String)
    (h1 : env.kubeconfigExists = true) (h2 : env.loadConfigError = none)
    (h3 : env.readDeployment = .ok d) (h4 : env.patchOutcomes 0 = .apiErr st e)
    (h5 : st ≠ 404) :
    (rollout_restart_deployment env now dn ns).1.success = false ∧
    (rollout_restart_deployment env now dn ns).1.message = "API Error: " ++ e ∧
    countPatchCalls (rollout_restart_deployment env now dn ns).2 = 1 := by
  obtain ⟨kc, lc, rd, po⟩ := env
  subst h1 h2 h3
  have h4x : po 0 = ApiOutcome.apiErr st e := h4
  simp [rollout_restart_deployment, countPatchCalls, h4x, h5]

theorem restart_no_retry_witness :
    (rollout_restart_deployment flakyRestartEnv sampleNow ("checkout") ("default")).1.success = false ∧
    (rollout_restart_deployment flakyRestartEnv sampleNow ("checkout") ("default")).1.message =
      "API Error: " ++ "boom" ∧
    countPatchCalls (rollout_restart_deployment flakyRestartEnv sampleNow ("checkout") ("default")).2 = 1 :=
  restart_no_retry flakyRestartEnv sampleNow ("checkout") ("default") okDeploymentObj
    500 ("boom") rfl rfl rfl rfl (by decide)

/-- Claim C6: on every input and every cluster behavior, both action handlers
return exactly one result envelope (they are total functions into the
envelope type, mirroring the source's catch-all handlers): the envelope's
success flag is true exactly on the happy path, its message is never empty,
and it always echoes the targeted deployment and namespace. -/
theorem handlers_total_envelope (envR : RestartEnv) (envL : LogsEnv) (now : PyDatetime)
    (dn ns : String) (hours : Int) (tl : Option Int) :
    ((rollout_restart_deployment envR now dn ns).1.success = restartHappy envR ∧
      (rollout_restart_deployment envR now dn ns).1.message ≠ "" ∧
      (rollout_restart_deployment envR now dn ns).1.deployment_name = dn ∧
      (rollout_restart_deployment envR now dn ns).1.nspace = ns) ∧
    ((get_deployment_logs envL dn ns hours tl).1.success = logsHappy envL ∧
      (get_deployment_logs envL dn ns hours tl).1.message ≠ "" ∧
      (get_deployment_logs envL dn ns hours tl).1.deployment_name = dn ∧
      (get_deployment_logs envL dn ns hours tl).1.nspace = ns) :=
  ⟨restart_envelope_classified envR now dn ns,
   logs_envelope_classified envL dn ns hours tl⟩

/-- Claim C7: a restart on a missing deployment returns a failure envelope
with a "not found" message, while on an existing deployment (whatever its
replica count, `d` being arbitrary — including 0 desired replicas) with a
successful patch it returns a success envelope. -/
theorem restart_existence_not_replicas (env : RestartEnv) (now : PyDatetime) (dn ns : String)
    (h1 : env.kubeconfigExists = true) (h2 : env.loadConfigError = none) :
    (∀ d : V1DeploymentObj, env.readDeployment = .ok d → env.patchOutcomes 0 = .ok () →
      (rollout_restart_deployment env now dn ns).1.success = true ∧
      (rollout_restart_deployment env now dn ns).1.message =
        "Deployment \x27" ++ dn ++ "\x27 in namespace \x27" ++ ns ++ "\x27 rollout restart initiated") ∧
    (∀ e : String, env.readDeployment = .apiErr 404 e →
      (rollout_restart_deployment env now dn ns).1.success = false ∧
      (rollout_restart_deployment env now dn ns).1.message =
        "Deployment \x27" ++ dn ++ "\x27 not found in namespace \x27" ++ ns ++ "\x27") := by
  obtain ⟨kc, lc, rd, po⟩ := env
  subst h1 h2
  constructor
  · intro d h3 h4
    subst h3
    have h4x : po 0 = ApiOutcome.ok () := h4
    simp [rollout_restart_deployment, h4x]
  · intro e h3
    subst h3
    simp [rollout_restart_deployment]

theorem restart_existence_not_replicas_witness :
    okDeploymentObj.replicas = some 0 ∧
    (rollout_restart_deployment okRestartEnv sampleNow ("checkout") ("default")).1.success = true :=
  ⟨rfl,
   ((restart_existence_not_replicas okRestartEnv sampleNow ("checkout") ("default") rfl rfl).1
      okDeploymentObj rfl rfl).1⟩

/-- Claim C8: whenever the restart reaches the patch (deployment read
succeeded), the single patch call carries, under the pod template metadata
path, the key `kubectl.kubernetes.io/restartedAt` mapped to `utcnow()` in
isoformat with a `Z` suffix, and that string is a well-formed
RFC3339/ISO-8601 UTC timestamp. -/
theorem restart_patch_body_timestamp (env : RestartEnv) (now : PyDatetime) (dn ns : String)
    (d : V1DeploymentObj)
    (h1 : env.kubeconfigExists = true) (h2 : env.loadConfigError = none)
    (h3 : env.readDeployment = .ok d)
    (hy : now.year < 10000) (hmo : now.month < 100) (hd : now.day < 100)
    (hh : now.hour < 100) (hmi : now.minute < 100) (hs : now.second < 100)
    (hus : now.microsecond < 1000000) :
    (rollout_restart_deployment env now dn ns).2 =
      [ApiCall.readNamespacedDeployment dn ns,
       ApiCall.patchNamespacedDeployment dn ns
         { spec_template_metadata_annotations := [(restartedAtKey, pyIsoformat now ++ "Z")] }] ∧
    isRFC3339UTC (pyIsoformat now ++ "Z") = true := by
  obtain ⟨kc, lc, rd, po⟩ := env
  subst h1 h2 h3
  refine ⟨?_, pyIsoformat_rfc now hy hmo hd hh hmi hs hus⟩
  rcases hpo : po 0 with u | ⟨st2, e2⟩ | e2
  · simp [rollout_restart_deployment, hpo]
  · simp only [rollout_restart_deployment, hpo]
    split_ifs <;> rfl
  · simp [rollout_restart_deployment, hpo]

theorem restart_patch_body_timestamp_witness :
    (rollout_restart_deployment okRestartEnv sampleNow ("checkout") ("default")).2 =
      [ApiCall.readNamespacedDeployment ("checkout") ("default"),
       ApiCall.patchNamespacedDeployment ("checkout") ("default")
         { spec_template_metadata_annotations := [(restartedAtKey, pyIsoformat sampleNow ++ "Z")] }] ∧
    isRFC3339UTC (pyIsoformat sampleNow ++ "Z") = true :=
  restart_patch_body_timestamp okRestartEnv sampleNow ("checkout") ("default") okDeploymentObj
    rfl rfl rfl (by decide) (by decide) (by decide) (by decide) (by decide) (by decide) (by decide)

/-- A deployment handle whose selector is the single label `app=web`. -/
def okLogsDeployment : V1DeploymentObj :=
  { replicas := some 1, selector_match_labels := [(("app"), ("web"))] }

/-- A cluster with one matching pod whose log read succeeds. -/
def onePodLogsEnv : LogsEnv :=
  { kubeconfigExists := true, loadConfigError := none,
    readDeployment := .ok okLogsDeployment,
    listPodsForSelector := fun _ => .ok ([("p1")]),
    readPodLog := fun _ => .ok ("hello") }

/-- The spec's aggregation scenario: three matching pods, pod B's log read
fails with a transient `ApiException`, A and C succeed. -/
def threePodLogsEnv : LogsEnv :=
  { kubeconfigExists := true, loadConfigError := none,
    readDeployment := .ok okLogsDeployment,
    listPodsForSelector := fun _ => .ok ([("podA"), ("podB"), ("podC")]),
    readPodLog := fun p => if p = "podB" then .apiErr 500 ("boom") else .ok ("log-" ++ p) }

/-- A cluster where the deployment exists but its selector matches no pods. -/
def noPodsLogsEnv : LogsEnv :=
  { kubeconfigExists := true, loadConfigError := none,
    readDeployment := .ok okLogsDeployment,
    listPodsForSelector := fun _ => .ok ([]),
    readPodLog := fun _ => .ok ("hello") }

/-- Claim C3 (counterexample): with `hours = -1` the code issues network
calls — the deployment read, the pod list, and a log read carrying
`since_seconds = -3600` — and even returns success; no client-error envelope
is produced before network I/O, contradicting the claim. -/
theorem logs_validation_counterexample :
    (get_deployment_logs onePodLogsEnv ("checkout") ("default") (-1) none).2 =
      [ApiCall.readNamespacedDeployment ("checkout") ("default"),
       ApiCall.listNamespacedPod ("default") ("app=web"),
       ApiCall.readNamespacedPodLog ("p1") ("default") (-3600) none] ∧
    (get_deployment_logs onePodLogsEnv ("checkout") ("default") (-1) none).1.success = true :=
  ⟨rfl, rfl⟩

/-- Claim C3 (amended): `get_deployment_logs` performs no argument
validation: whenever the deployment read succeeds the first network call has
already been issued whatever the argument values (hours = -1 included), and
every per-pod log call in the trace passes `since_seconds = hours*3600` and
the given tail count straight through to the cluster. -/
theorem logs_no_validation (env : LogsEnv) (dn ns : String) (hours : Int) (tl : Option Int)
    (d : V1DeploymentObj)
    (h1 : env.kubeconfigExists = true) (h2 : env.loadConfigError = none)
    (h3 : env.readDeployment = .ok d) :
    (get_deployment_logs env dn ns hours tl).2.head? =
      some (ApiCall.readNamespacedDeployment dn ns) ∧
    (∀ p n0 s t0,
      ApiCall.readNamespacedPodLog p n0 s t0 ∈ (get_deployment_logs env dn ns hours tl).2 →
      s = hours * 3600 ∧ n0 = ns ∧ t0 = tl) := by
  obtain ⟨kc, lc, rd, lp, pl⟩ := env
  subst h1 h2 h3
  rcases hlp : lp (labelSelectorOf d.selector_match_labels) with pods | ⟨st2, e2⟩ | e2
  case apiErr =>
    constructor
    · simp only [get_deployment_logs, hlp]
      split_ifs <;> first | rfl | contradiction
    · intro p n0 s t0 hmem
      simp only [get_deployment_logs, hlp] at hmem
      split_ifs at hmem <;> first | simp at hmem | contradiction
  case exn =>
    constructor
    · simp [get_deployment_logs, hlp]
    · intro p n0 s t0 hmem
      simp [get_deployment_logs, hlp] at hmem
  case ok =>
    rcases pods with _ | ⟨p0, rest⟩
    · constructor
      · simp [get_deployment_logs, hlp]
      · intro p n0 s t0 hmem
        simp [get_deployment_logs, hlp] at hmem
    · rcases hab : (fetchPodLogs ⟨true, none, .ok d, lp, pl⟩ ns (hours * 3600) tl (p0 :: rest)).2.2
        with _ | e3 <;>
        (constructor
         · simp [get_deployment_logs, hlp, hab]
         · intro p n0 s t0 hmem
           simp only [get_deployment_logs, hlp, hab, ite_true_eq_false, List.cons_append,
             List.nil_append, List.mem_cons] at hmem
           rcases hmem with h | h | h
           · exact absurd h (by simp)
           · exact absurd h (by simp)
           · obtain ⟨q, hq⟩ := fetchPodLogs_calls_shape _ _ _ _ (p0 :: rest) _ h
             injection hq with hp hn hs2 ht
             exact ⟨hs2, hn, ht⟩)

theorem logs_no_validation_witness :
    (get_deployment_logs onePodLogsEnv ("checkout") ("default") (-1) none).2.head? =
      some (ApiCall.readNamespacedDeployment ("checkout") ("default")) :=
  (logs_no_validation onePodLogsEnv ("checkout") ("default") (-1) none okLogsDeployment
    rfl rfl rfl).1

/-- Claim C4: with an existing deployment and a nonempty matching pod list in
which no pod read raises a non-`ApiException`, each pod's log is fetched with
`since_seconds = hours*3600`, a per-pod `ApiError` becomes that pod's entry
without aborting the others, and the aggregate result is success=true even
when every per-pod fetch failed, the errors staying visible in the bundle. -/
theorem logs_per_pod_independent (env : LogsEnv) (dn ns : String) (hours : Int) (tl : Option Int)
    (d : V1DeploymentObj) (pods : List String)
    (h1 : env.kubeconfigExists = true) (h2 : env.loadConfigError = none)
    (h3 : env.readDeployment = .ok d)
    (h4 : env.listPodsForSelector (labelSelectorOf d.selector_match_labels) = .ok pods)
    (h5 : pods ≠ [])
    (h6 : ∀ p ∈ pods, (env.readPodLog p).isExn = false) :
    (get_deployment_logs env dn ns hours tl).1.success = true ∧
    (get_deployment_logs env dn ns hours tl).1.logs = pods.map (podLogEntry env) ∧
    (∀ p ∈ pods,
      ApiCall.readNamespacedPodLog p ns (hours * 3600) tl ∈ (get_deployment_logs env dn ns hours tl).2) ∧
    (∀ p st e, p ∈ pods → env.readPodLog p = .apiErr st e →
      (p, "Error retrieving logs: " ++ e) ∈ (get_deployment_logs env dn ns hours tl).1.logs) := by
  obtain ⟨kc, lc, rd, lp, pl⟩ := env
  subst h1 h2 h3
  have h4x : lp (labelSelectorOf d.selector_match_labels) = .ok pods := h4
  rcases pods with _ | ⟨p0, rest⟩
  · exact absurd rfl h5
  · have hab : (fetchPodLogs ⟨true, none, .ok d, lp, pl⟩ ns (hours * 3600) tl (p0 :: rest)).2.2 = none :=
      (fetchPodLogs_abort_none _ _ _ _ _).mpr h6
    have hent := fetchPodLogs_entries (⟨true, none, .ok d, lp, pl⟩ : LogsEnv) ns (hours * 3600) tl
      (p0 :: rest) h6
    have hcalls := fetchPodLogs_calls (⟨true, none, .ok d, lp, pl⟩ : LogsEnv) ns (hours * 3600) tl
      (p0 :: rest) h6
    refine ⟨?_, ?_, ?_, ?_⟩
    · simp [get_deployment_logs, h4x, hab]
    · simp [get_deployment_logs, h4x, hab, hent]
    · intro p hp
      simp only [get_deployment_logs, h4x, hab, hcalls, ite_true_eq_false, List.cons_append,
        List.nil_append, List.mem_cons]
      refine Or.inr (Or.inr ?_)
      exact List.mem_map.mpr ⟨p, hp, rfl⟩
    · intro p st e hp he
      have hex : pl p = ApiOutcome.apiErr st e := he
      simp only [get_deployment_logs, h4x, hab, hent, ite_true_eq_false]
      apply List.mem_map.mpr
      refine ⟨p, hp, ?_⟩
      simp [podLogEntry, hex]

theorem logs_per_pod_independent_witness :
    (get_deployment_logs threePodLogsEnv ("checkout") ("default") 1 none).1.success = true ∧
    (get_deployment_logs threePodLogsEnv ("checkout") ("default") 1 none).1.logs =
      [(("podA"), ("log-podA")), (("podB"), ("Error retrieving logs: boom")),
       (("podC"), ("log-podC"))] :=
  ⟨(logs_per_pod_independent threePodLogsEnv ("checkout") ("default") 1 none okLogsDeployment
      ([("podA"), ("podB"), ("podC")]) rfl rfl rfl rfl (by decide) (by decide)).1,
   (logs_per_pod_independent threePodLogsEnv ("checkout") ("default") 1 none okLogsDeployment
      ([("podA"), ("podB"), ("podC")]) rfl rfl rfl rfl (by decide) (by decide)).2.1⟩

/-- Claim C5: an existing deployment whose selector matches zero pods yields
a failure envelope (success=false, "no pods found" message) with an empty
log bundle, not a successful empty bundle. -/
theorem logs_no_pods_failure (env : LogsEnv) (dn ns : String) (hours : Int) (tl : Option Int)
    (d : V1DeploymentObj)
    (h1 : env.kubeconfigExists = true) (h2 : env.loadConfigError = none)
    (h3 : env.readDeployment = .ok d)
    (h4 : env.listPodsForSelector (labelSelectorOf d.selector_match_labels) = .ok []) :
    (get_deployment_logs env dn ns hours tl).1.success = false ∧
    (get_deployment_logs env dn ns hours tl).1.message =
      "No pods found for deployment \x27" ++ dn ++ "\x27 in namespace \x27" ++ ns ++ "\x27" ∧
    (get_deployment_logs env dn ns hours tl).1.logs = [] := by
  obtain ⟨kc, lc, rd, lp, pl⟩ := env
  subst h1 h2 h3
  have h4x : lp (labelSelectorOf d.selector_match_labels) = .ok [] := h4
  simp [get_deployment_logs, h4x]

theorem logs_no_pods_failure_witness :
    (get_deployment_logs noPodsLogsEnv ("checkout") ("default") 1 none).1.success = false ∧
    (get_deployment_logs noPodsLogsEnv ("checkout") ("default") 1 none).1.message =
      "No pods found for deployment \x27" ++ "checkout" ++ "\x27 in namespace \x27" ++ "default" ++ "\x27" ∧
    (get_deployment_logs noPodsLogsEnv ("checkout") ("default") 1 none).1.logs = [] :=
  logs_no_pods_failure noPodsLogsEnv ("checkout") ("default") 1 none okLogsDeployment
    rfl rfl rfl rfl

/-- A deployment scaled to 0: spec.replicas = 0 while the status carries no
ready/available counts (as the API omits zero-valued counts). -/
def zeroScaleDeployment : V1DeploymentItem :=
  { name := ("checkout"), spec_present := true, spec_replicas := some 0,
    template_chain_present := true, container_images := [("img:1")],
    creation_timestamp := none, status_present := true,
    status_ready_replicas := none, status_available_replicas := none,
    status_updated_replicas := none }

/-- A namespace holding exactly the zero-scale deployment. -/
def zeroScaleDeploysEnv : DeploysEnv :=
  { kubeconfigExists := true, loadConfigError := none, nowEpoch := 0,
    listDeploymentsOutcome := .ok [zeroScaleDeployment] }

/-- The healthy formula exactly as the SPEC words it (refinement comparison
definition, deliberately NOT taken from the source): ready == desired and
available == desired on the reported counts, where counts absent from the
status are the reported defaults (0). -/
def healthySpecFormula (info : DeploymentInfo) : Bool :=
  pyEqOpt (some info.ready_replicas) info.total_replicas &&
    pyEqOpt (some info.available_replicas) info.total_replicas

/-- The value `ready_replicas` holds in the source before the `or 0`
defaulting: the raw status count, or Python `0` when the status is absent. -/
def rawReadyOf (d : V1DeploymentItem) : Option Int :=
  if d.status_present then d.status_ready_replicas else some 0

/-- Same as `rawReadyOf` for `available_replicas`. -/
def rawAvailOf (d : V1DeploymentItem) : Option Int :=
  if d.status_present then d.status_available_replicas else some 0

/-- The value `total_replicas` holds in the source: `spec.replicas` (possibly
`None`), or Python `0` when the spec is absent. -/
def rawTotalOf (d : V1DeploymentItem) : Option Int :=
  if d.spec_present then d.spec_replicas else some 0

/-- Claim C9 (counterexample): on a deployment with 0 desired replicas and
absent ready/available status counts, the source reports is_healthy = false
while the claimed formula (with absent counts treated as the reported
defaults) yields true — the claim does not match the code. -/
theorem list_deployments_healthy_counterexample :
    (list_deployments_in_namespace zeroScaleDeploysEnv ("default")).map
        (fun info => (info.is_healthy, healthySpecFormula info)) = [(false, true)] :=
  rfl

/-- Claim C9 (amended): the healthy flag is computed on the raw (pre-default)
counts with explicit presence guards:
`ready present && ready == desired && available present && available == desired`;
a deployment whose status omits the ready/available counts is reported
unhealthy even when they would default to the desired count 0, while the
reported `ready_replicas`/`available_replicas` fields themselves use the
`or 0` defaults. -/
theorem list_deployments_healthy_formula (env : DeploysEnv) (ns : String)
    (items : List V1DeploymentItem) (i : Nat) (d : V1DeploymentItem)
    (h1 : env.kubeconfigExists = true) (h2 : env.loadConfigError = none)
    (h3 : env.listDeploymentsOutcome = .ok items) (h4 : items[i]? = some d) :
    ((list_deployments_in_namespace env ns)[i]?.map DeploymentInfo.is_healthy) =
      some ((rawReadyOf d).isSome && pyEqOpt (rawReadyOf d) (rawTotalOf d) &&
        (rawAvailOf d).isSome && pyEqOpt (rawAvailOf d) (rawTotalOf d)) ∧
    ((list_deployments_in_namespace env ns)[i]?.map DeploymentInfo.ready_replicas) =
      some (pyOrZero (rawReadyOf d)) ∧
    ((list_deployments_in_namespace env ns)[i]?.map DeploymentInfo.available_replicas) =
      some (pyOrZero (rawAvailOf d)) ∧
    ((list_deployments_in_namespace env ns)[i]?.map DeploymentInfo.total_replicas) =
      some (rawTotalOf d) := by
  obtain ⟨kc, lc, nowE, ldo⟩ := env
  subst h1 h2 h3
  refine ⟨?_, ?_, ?_, ?_⟩ <;>
    (simp only [list_deployments_in_namespace, ite_true_eq_false]
     rw [List.getElem?_map, h4]
     rfl)

theorem list_deployments_healthy_formula_witness :
    ((list_deployments_in_namespace zeroScaleDeploysEnv ("default"))[0]?.map
        DeploymentInfo.is_healthy) =
      some ((rawReadyOf zeroScaleDeployment).isSome &&
        pyEqOpt (rawReadyOf zeroScaleDeployment) (rawTotalOf zeroScaleDeployment) &&
        (rawAvailOf zeroScaleDeployment).isSome &&
        pyEqOpt (rawAvailOf zeroScaleDeployment) (rawTotalOf zeroScaleDeployment)) ∧
    ((list_deployments_in_namespace zeroScaleDeploysEnv ("default"))[0]?.map
        DeploymentInfo.ready_replicas) = some (pyOrZero (rawReadyOf zeroScaleDeployment)) ∧
    ((list_deployments_in_namespace zeroScaleDeploysEnv ("default"))[0]?.map
        DeploymentInfo.available_replicas) = some (pyOrZero (rawAvailOf zeroScaleDeployment)) ∧
    ((list_deployments_in_namespace zeroScaleDeploysEnv ("default"))[0]?.map
        DeploymentInfo.total_replicas) = some (rawTotalOf zeroScaleDeployment) :=
  list_deployments_healthy_formula zeroScaleDeploysEnv ("default") ([zeroScaleDeployment]) 0
    zeroScaleDeployment rfl rfl rfl rfl

/-- A healthy-cluster pods environment returning the given items. -/
def okPodsEnv (items : List V1Pod) : PodsEnv :=
  { kubeconfigExists := true, loadConfigError := none, listPodsOutcome := .ok items }

/-- A healthy-cluster deployments environment returning the given items. -/
def okDeploysEnv (items : List V1DeploymentItem) : DeploysEnv :=
  { kubeconfigExists := true, loadConfigError := none, nowEpoch := 0,
    listDeploymentsOutcome := .ok items }

/-- A pods environment with a missing kubeconfig file. -/
def badPodsEnv : PodsEnv :=
  { kubeconfigExists := false, loadConfigError := none, listPodsOutcome := .apiErr 404 ("nf") }

/-- A deployments environment whose listing raises a non-Api exception. -/
def badDeploysEnv : DeploysEnv :=
  { kubeconfigExists := true, loadConfigError := none, nowEpoch := 0,
    listDeploymentsOutcome := .exn ("boom") }

/-- Claim C10: the listing functions return the empty list on every error
path (missing kubeconfig, config-load failure, namespace not found, API
error, any other exception), and a genuinely empty namespace also returns
the empty list — so the two outcomes are indistinguishable in the returned
value. -/
theorem list_error_paths_empty (envP : PodsEnv) (envD : DeploysEnv) (ns : String) :
    (podsHappy envP = false → list_pods_in_namespace envP ns = []) ∧
    (deploysHappy envD = false → list_deployments_in_namespace envD ns = []) ∧
    list_pods_in_namespace (okPodsEnv []) ns = [] ∧
    list_deployments_in_namespace (okDeploysEnv []) ns = [] := by
  refine ⟨?_, ?_, rfl, rfl⟩
  · obtain ⟨kc, lc, lo⟩ := envP
    cases kc <;> rcases lc with _ | e0 <;> rcases lo with items | ⟨st, e1⟩ | e1 <;>
      simp [podsHappy, list_pods_in_namespace, ApiOutcome.isOk, Option.isNone]
  · obtain ⟨kc, lc, nowE, lo⟩ := envD
    cases kc <;> rcases lc with _ | e0 <;> rcases lo with items | ⟨st, e1⟩ | e1 <;>
      simp [deploysHappy, list_deployments_in_namespace, ApiOutcome.isOk, Option.isNone]

theorem list_error_paths_empty_witness :
    list_pods_in_namespace badPodsEnv ("default") = [] ∧
    list_deployments_in_namespace badDeploysEnv ("default") = [] ∧
    list_pods_in_namespace (okPodsEnv []) ("default") = [] ∧
    list_deployments_in_namespace (okDeploysEnv []) ("default") = [] :=
  ⟨(list_error_paths_empty badPodsEnv badDeploysEnv ("default")).1 rfl,
   (list_error_paths_empty badPodsEnv badDeploysEnv ("default")).2.1 rfl,
   (list_error_paths_empty badPodsEnv badDeploysEnv ("default")).2.2.1,
   (list_error_paths_empty badPodsEnv badDeploysEnv ("default")).2.2.2⟩
